import Mathlib

/-!
# Shallow embedding of the weatherstation scripts

This file embeds the two Python scripts `weatherstation.py` and
`weatherstation_RPI.py` into Lean and proves properties of the embedding.

Modelling conventions:
* Python strings are `String` / `List Char`; Python numbers are `ℚ`
  (exact rationals standing for the ideal values of the floats).
* Python `None` is `Option.none`.
* A Python function that can raise an exception to its caller returns
  `Except PyErr _`; a function whose body catches every exception
  returns a plain `Option _`.
* A sensor file's content is modelled as the result of `readlines()`
  (a `List String`, each entry one line); a missing file or absent
  device is `Option.none` at the call site.
-/

/-- Exceptions the modelled Python code can raise. -/
inductive PyErr where
  | fileNotFound
  | indexError
  | valueError
  | typeError
  deriving DecidableEq, Repr

/-- The whitespace characters stripped by Python's `str.strip()`
(the rare `\x0b`/`\x0c` are omitted; they occur in no claim input). -/
def isPyWs (c : Char) : Bool :=
  c == ' ' || c == '\t' || c == '\n' || c == '\r'

/-- `str.strip()` on a character list. -/
def pyStripL (cs : List Char) : List Char :=
  ((cs.dropWhile isPyWs).reverse.dropWhile isPyWs).reverse

/-- Python `str.strip()`. -/
def pyStrip (s : String) : String :=
  String.mk (pyStripL s.toList)

/-- `needle` is a prefix of `hay` (boolean). -/
def isPrefixL : List Char → List Char → Bool
  | [], _ => true
  | _ :: _, [] => false
  | a :: as, b :: bs => a == b && isPrefixL as bs

/-- Python's substring test `needle in hay` (boolean). -/
def containsL (needle : List Char) : List Char → Bool
  | [] => isPrefixL needle []
  | c :: t => isPrefixL needle (c :: t) || containsL needle t

/-- Split at the first occurrence of `pat`: returns the part before the
first occurrence and the part after it, or `none` when `pat` does not
occur (models `str.find` plus slicing). -/
def splitFirstL (pat : List Char) : List Char → Option (List Char × List Char)
  | [] => if isPrefixL pat [] then some ([], []) else none
  | c :: t =>
    if isPrefixL pat (c :: t) then some ([], (c :: t).drop pat.length)
    else
      match splitFirstL pat t with
      | some (pre, post) => some (c :: pre, post)
      | none => none

/-- `s.split(pat)[1]`: the segment between the first and the second
occurrence of `pat` (the rest of the string when `pat` occurs once);
`none` models the `IndexError` raised when `pat` does not occur. -/
def pySplit1 (pat : List Char) (cs : List Char) : Option (List Char) :=
  match splitFirstL pat cs with
  | none => none
  | some (_, post) =>
    match splitFirstL pat post with
    | some (pre2, _) => some pre2
    | none => some post

/-- Python slice `s[-n:]` on a list: the last `min n (length)` elements. -/
def listTakeRight (n : Nat) (cs : List Char) : List Char :=
  cs.drop (cs.length - n)

/-- Numeric value of a decimal digit. -/
def digitVal (c : Char) : Nat := c.toNat - '0'.toNat

/-- A run of decimal digits in which an underscore may appear only
between two digits (the digit-part grammar of Python's `int()`).
The first character is checked separately in `natDigits`. -/
def pyDigitRun : List Char → Bool
  | [] => true
  | '_' :: c :: rest => c.isDigit && pyDigitRun (c :: rest)
  | c :: rest => c.isDigit && pyDigitRun rest

/-- Value of a digit run, ignoring underscores. -/
def natDigitsVal (cs : List Char) : Nat :=
  (cs.filter (fun c => c != '_')).foldl (fun acc c => 10 * acc + digitVal c) 0

/-- The unsigned part of Python's `int()`: a non-empty digit run that
starts with a digit and has underscores only between digits. -/
def natDigits (cs : List Char) : Option Nat :=
  match cs with
  | [] => none
  | c :: _ => if c.isDigit && pyDigitRun cs then some (natDigitsVal cs) else none

/-- Python's `int(s)` on a character list: strip whitespace, optional
sign, then a digit run; `none` models the `ValueError`. -/
def pyIntL (cs : List Char) : Option Int :=
  match pyStripL cs with
  | [] => none
  | a :: rest =>
    if a = '+' then (natDigits rest).map Int.ofNat
    else if a = '-' then (natDigits rest).map (fun n => -(Int.ofNat n))
    else (natDigits (a :: rest)).map Int.ofNat

/-- Python's `int(s)`. -/
def pyInt (s : String) : Option Int := pyIntL s.toList

/-- The characters of the CRC-OK token `"YES"`. -/
def yesL : List Char := ['Y', 'E', 'S']

/-- The characters of the temperature marker `"t="`. -/
def tEqL : List Char := ['t', '=']

/-- `read_temp` from `weatherstation.py` (lines 28-33).  The body runs
under no `try`, so every exception propagates to the caller:
a missing file raises, `lines[0]` / `lines[1]` / `split("t=")[1]`
raise `IndexError`, and `int(...)` raises `ValueError`.
On a first line without `"YES"` it returns `None`. -/
def read_temp (file : Option (List String)) : Except PyErr (Option ℚ) :=
  match file with
  | none => .error .fileNotFound
  | some lines =>
    match lines with
    | [] => .error .indexError
    | l0 :: rest =>
      if containsL yesL l0.toList then
        match rest with
        | [] => .error .indexError
        | l1 :: _ =>
          match pySplit1 tEqL l1.toList with
          | none => .error .indexError
          | some post =>
            match pyIntL post with
            | none => .error .valueError
            | some n => .ok (some ((n : ℚ) / 1000))
      else .ok none

/-- `read_temp_c` from `weatherstation_RPI.py` (lines 68-91).  `none`
for the file models both "no device found" and a failing `open` (the
latter is caught by the `try`).  Every exception inside the `try` is
caught and converted to `None`; `pos = -1` and the fall-through also
yield `None`. -/
def read_temp_c (file : Option (List String)) : Option ℚ :=
  match file with
  | none => none
  | some lines =>
    match lines with
    | [] => none
    | l0 :: rest =>
      if listTakeRight 3 (pyStripL l0.toList) ≠ yesL then none
      else
        match rest with
        | [] => none
        | l1 :: _ =>
          match splitFirstL tEqL l1.toList with
          | none => none
          | some (_, post) =>
            match pyIntL post with
            | none => none
            | some n => some ((n : ℚ) / 1000)

example : read_temp (some ["5a 01 4b 46 7f ff 0c 10 a9 : crc=a9 YES\n", "5a 01 4b 46 7f ff 0c 10 a9 t=22875\n"]) = .ok (some (22875 / 1000)) := rfl
example : read_temp_c (some ["5a 01 4b 46 7f ff 0c 10 a9 : crc=a9 YES\n", "5a 01 4b 46 7f ff 0c 10 a9 t=22875\n"]) = some (22875 / 1000) := rfl
example : read_temp (some ["blah YES\n"]) = .error .indexError := rfl
example : read_temp_c (some ["blah YES\n"]) = none := rfl
example : read_temp (some ["aa YES\n", "bb t=abc\n"]) = .error .valueError := rfl
example : read_temp_c (some ["aa YES\n", "bb t=abc\n"]) = none := rfl
example : read_temp (some ["crc=a9 NO\n", "bb t=123\n"]) = .ok none := rfl
example : read_temp_c (some ["crc=a9 NO\n", "bb t=123\n"]) = none := rfl
example : pyInt " -1_2\n" = some (-12) := by decide
example : pyInt "_12" = none := by decide
example : pyInt "1_" = none := by decide

/-! ## JSON values and a model of `json.loads` -/

/-- A decoded JSON value.  Objects keep their key/value pairs in source
order; Python's `dict` semantics (later duplicate keys win) live in
`jsonGet`. -/
inductive Json where
  | null
  | bool (b : Bool)
  | num (q : ℚ)
  | str (s : String)
  | arr (xs : List Json)
  | obj (kvs : List (String × Json))
  deriving Repr

/-- Python `dict.get(k)` on a parsed object: the value of the last
binding of `k` (later duplicate keys overwrite earlier ones), or
`none`. -/
def jsonGet (kvs : List (String × Json)) (k : String) : Option Json :=
  (kvs.reverse.find? (fun p => p.1 == k)).map (fun p => p.2)

/-- Skip JSON whitespace. -/
def skipWs (cs : List Char) : List Char :=
  cs.dropWhile (fun c => c == ' ' || c == '\t' || c == '\n' || c == '\r')

/-- Hex digit value, or `none` (codepoints: 97-102 are a-f, 65-70 are
A-F). -/
def hexVal (c : Char) : Option Nat :=
  let n := c.toNat
  if c.isDigit then some (digitVal c)
  else if 97 ≤ n && n ≤ 102 then some (n - 87)
  else if 65 ≤ n && n ≤ 70 then some (n - 55)
  else none

/-- Parse the body of a JSON string (after the opening quote) up to the
closing quote, handling the escape sequences of RFC 8259. -/
def parseStr : List Char → Option (List Char × List Char)
  | [] => none
  | '"' :: rest => some ([], rest)
  | '\\' :: e :: rest =>
    match e with
    | '"' => (parseStr rest).map (fun p => ('"' :: p.1, p.2))
    | '\\' => (parseStr rest).map (fun p => ('\\' :: p.1, p.2))
    | '/' => (parseStr rest).map (fun p => ('/' :: p.1, p.2))
    | 'n' => (parseStr rest).map (fun p => ('\n' :: p.1, p.2))
    | 't' => (parseStr rest).map (fun p => ('\t' :: p.1, p.2))
    | 'r' => (parseStr rest).map (fun p => ('\r' :: p.1, p.2))
    | 'b' => (parseStr rest).map (fun p => ((Char.ofNat 8) :: p.1, p.2))
    | 'f' => (parseStr rest).map (fun p => ((Char.ofNat 12) :: p.1, p.2))
    | 'u' =>
      match rest with
      | h1 :: h2 :: h3 :: h4 :: rest' =>
        match hexVal h1, hexVal h2, hexVal h3, hexVal h4 with
        | some a, some b, some c, some d =>
          (parseStr rest').map
            (fun p => (Char.ofNat (((a * 16 + b) * 16 + c) * 16 + d) :: p.1, p.2))
        | _, _, _, _ => none
      | _ => none
    | _ => none
  | c :: rest => (parseStr rest).map (fun p => (c :: p.1, p.2))

/-- Parse a JSON number at the head of the input: `-? int frac? exp?`
with the usual no-leading-zero rule; returns its exact rational value.
(`NaN`/`Infinity`, which Python's decoder also accepts, are not
modelled; no claim involves them.) -/
def parseNum (cs : List Char) : Option (ℚ × List Char) :=
  let (neg, cs1) := match cs with
    | '-' :: t => (true, t)
    | _ => (false, cs)
  let intDs := cs1.takeWhile Char.isDigit
  let cs2 := cs1.dropWhile Char.isDigit
  if intDs.isEmpty then none
  else if decide (1 < intDs.length) && (intDs.headD '1' == '0') then none
  else
    let (hasFrac, fracDs, cs3) := match cs2 with
      | '.' :: t => (true, t.takeWhile Char.isDigit, t.dropWhile Char.isDigit)
      | _ => (false, [], cs2)
    if hasFrac && fracDs.isEmpty then none
    else
      let (hasExp, expNeg, expDs, cs4) := match cs3 with
        | 'e' :: '-' :: t => (true, true, t.takeWhile Char.isDigit, t.dropWhile Char.isDigit)
        | 'e' :: '+' :: t => (true, false, t.takeWhile Char.isDigit, t.dropWhile Char.isDigit)
        | 'e' :: t => (true, false, t.takeWhile Char.isDigit, t.dropWhile Char.isDigit)
        | 'E' :: '-' :: t => (true, true, t.takeWhile Char.isDigit, t.dropWhile Char.isDigit)
        | 'E' :: '+' :: t => (true, false, t.takeWhile Char.isDigit, t.dropWhile Char.isDigit)
        | 'E' :: t => (true, false, t.takeWhile Char.isDigit, t.dropWhile Char.isDigit)
        | _ => (false, false, [], cs3)
      if hasExp && expDs.isEmpty then none
      else
        let mantN : Int := Int.ofNat (natDigitsVal (intDs ++ fracDs))
        let e : Nat := natDigitsVal expDs
        let num : Int := (if neg then -mantN else mantN) * (if expNeg then 1 else Int.ofNat (10 ^ e))
        let den : Nat := 10 ^ fracDs.length * (if expNeg then 10 ^ e else 1)
        some (mkRat num den, cs4)

mutual
/-- Parse one JSON value at the head of the input. -/
def parseVal : Nat → List Char → Option (Json × List Char)
  | 0, _ => none
  | Nat.succ fuel, cs =>
    match skipWs cs with
    | [] => none
    | '{' :: t =>
      (match skipWs t with
       | '}' :: t' => some (Json.obj [], t')
       | _ => (parseMembers fuel t).map (fun p => (Json.obj p.1, p.2)))
    | '[' :: t =>
      (match skipWs t with
       | ']' :: t' => some (Json.arr [], t')
       | _ => (parseElems fuel t).map (fun p => (Json.arr p.1, p.2)))
    | '"' :: t => (parseStr t).map (fun p => (Json.str (String.mk p.1), p.2))
    | 't' :: 'r' :: 'u' :: 'e' :: t => some (Json.bool true, t)
    | 'f' :: 'a' :: 'l' :: 's' :: 'e' :: t => some (Json.bool false, t)
    | 'n' :: 'u' :: 'l' :: 'l' :: t => some (Json.null, t)
    | cs' => (parseNum cs').map (fun p => (Json.num p.1, p.2))

/-- Parse a non-empty comma-separated list of array elements and the
closing bracket. -/
def parseElems : Nat → List Char → Option (List Json × List Char)
  | 0, _ => none
  | Nat.succ fuel, cs =>
    match parseVal fuel cs with
    | none => none
    | some (v, rest) =>
      match skipWs rest with
      | ',' :: t =>
        (parseElems fuel t).map (fun p => (v :: p.1, p.2))
      | ']' :: t => some ([v], t)
      | _ => none

/-- Parse a non-empty comma-separated list of object members and the
closing brace. -/
def parseMembers : Nat → List Char → Option (List (String × Json) × List Char)
  | 0, _ => none
  | Nat.succ fuel, cs =>
    match skipWs cs with
    | '"' :: t =>
      match parseStr t with
      | none => none
      | some (key, rest) =>
        match skipWs rest with
        | ':' :: t2 =>
          match parseVal fuel t2 with
          | none => none
          | some (v, rest2) =>
            match skipWs rest2 with
            | ',' :: t3 =>
              (parseMembers fuel t3).map (fun p => ((String.mk key, v) :: p.1, p.2))
            | '}' :: t3 => some ([(String.mk key, v)], t3)
            | _ => none
        | _ => none
    | _ => none
end

/-- Model of Python's `json.loads`: parse one JSON value and require
only whitespace after it; `none` models the raised decode exception. -/
def pyJsonLoads (s : String) : Option Json :=
  match parseVal (2 * s.length + 2) s.toList with
  | none => none
  | some (v, rest) => if skipWs rest = [] then some v else none

/-- Model of Python's `float(x)` on a string: strip whitespace, then an
optional sign and a decimal literal with optional fraction and
exponent (`inf`/`nan` are not modelled; no claim involves them).
`none` models the `ValueError`. -/
def pyFloatOfString (s : String) : Option ℚ :=
  let cs := pyStripL s.toList
  let (neg, cs1) := match cs with
    | '-' :: t => (true, t)
    | '+' :: t => (false, t)
    | _ => (false, cs)
  let intDs := cs1.takeWhile Char.isDigit
  let cs2 := cs1.dropWhile Char.isDigit
  let (fracDs, cs3) := match cs2 with
    | '.' :: t => (t.takeWhile Char.isDigit, t.dropWhile Char.isDigit)
    | _ => ([], cs2)
  if intDs.isEmpty && fracDs.isEmpty then none
  else
    let (hasExp, expNeg, expDs, cs4) := match cs3 with
      | 'e' :: '-' :: t => (true, true, t.takeWhile Char.isDigit, t.dropWhile Char.isDigit)
      | 'e' :: '+' :: t => (true, false, t.takeWhile Char.isDigit, t.dropWhile Char.isDigit)
      | 'e' :: t => (true, false, t.takeWhile Char.isDigit, t.dropWhile Char.isDigit)
      | 'E' :: '-' :: t => (true, true, t.takeWhile Char.isDigit, t.dropWhile Char.isDigit)
      | 'E' :: '+' :: t => (true, false, t.takeWhile Char.isDigit, t.dropWhile Char.isDigit)
      | 'E' :: t => (true, false, t.takeWhile Char.isDigit, t.dropWhile Char.isDigit)
      | _ => (false, false, [], cs3)
    if (hasExp && expDs.isEmpty) || !cs4.isEmpty then none
    else
      let mantN : Int := Int.ofNat (natDigitsVal (intDs ++ fracDs))
      let e : Nat := natDigitsVal expDs
      let num : Int := (if neg then -mantN else mantN) * (if expNeg then 1 else Int.ofNat (10 ^ e))
      let den : Nat := 10 ^ fracDs.length * (if expNeg then 10 ^ e else 1)
      some (mkRat num den)

/-- Model of Python's `float(x)` on a decoded JSON value.  A bool is an
`int` subtype in Python, so `float(True) = 1.0`; `float` of `None`, a
list or a dict raises `TypeError`, modelled as `none`. -/
def pyFloat : Json → Option ℚ
  | .num q => some q
  | .bool b => some (if b then 1 else 0)
  | .str s => pyFloatOfString s
  | _ => none

example : pyJsonLoads " \x7b\"ws_ms\": 3.456\x7d " = some (Json.obj [("ws_ms", Json.num (432 / 125))]) := by with_unfolding_all rfl
example : pyJsonLoads "\x7b\"ws_ms\": 1.57\x7d" = some (Json.obj [("ws_ms", Json.num (157 / 100))]) := by with_unfolding_all rfl
example : pyJsonLoads "not json" = none := rfl
example : pyJsonLoads "" = none := rfl
example : pyJsonLoads "\x7b\"x\": 1\x7d" = some (Json.obj [("x", Json.num 1)]) := by with_unfolding_all rfl
example : pyJsonLoads "[1, -2.5e1, true]" = some (Json.arr [Json.num 1, Json.num (-25), Json.bool true]) := by with_unfolding_all rfl
example : pyJsonLoads "\"a\\nb\"" = some (Json.str "a\nb") := rfl
example : pyJsonLoads "01" = none := rfl
example : jsonGet [("a", Json.num 1), ("a", Json.num 2)] "a" = some (Json.num 2) := rfl
example : pyFloat (Json.str " 2.5e-1 ") = some (1 / 4) := by with_unfolding_all rfl

/-! ## Rounding and publishing -/

/-- Round-half-to-even on rationals (the rounding of Python's `round`
on an exact decimal value). -/
def roundHalfEven (q : ℚ) : Int :=
  let f : Int := ⌊q⌋
  let r : ℚ := q - f
  if r < 1 / 2 then f
  else if 1 / 2 < r then f + 1
  else if f % 2 = 0 then f else f + 1

/-- Python's `round(x, 2)` on the exact value: round `100 * x`
half-to-even and divide by 100. -/
def pyRound2 (q : ℚ) : ℚ := mkRat (roundHalfEven (q * 100)) 100

example : pyRound2 (mkRat 3456 1000) = mkRat 346 100 := by with_unfolding_all rfl
example : pyRound2 (mkRat 22875 1000) = mkRat 2288 100 := by with_unfolding_all rfl
example : pyRound2 (mkRat 22865 1000) = mkRat 2286 100 := by with_unfolding_all rfl

/-! ## Wind readers -/

/-- The wind read of `weatherstation_RPI.py` (lines 120-129) as a
function of the decoded serial line.  The stripped line must be
non-empty; `json.loads` failure is caught by the inner `try`; on a
non-dict payload `.get` raises `AttributeError`, also caught; a
missing `"ws_ms"` key falls back to the default `0.0`; `float(...)`
failure is caught as well. -/
def rpiReadWind (s : String) : Option ℚ :=
  let line := pyStrip s
  if line = "" then none
  else
    match pyJsonLoads line with
    | none => none
    | some (Json.obj kvs) => pyFloat ((jsonGet kvs "ws_ms").getD (Json.num 0))
    | some _ => none

/-- The wind read of `weatherstation.py` (lines 61-67) as a function of
the decoded serial line: `json.loads(line).get("ws_ms")` under a bare
`except`, with no `float` conversion and no default, so a missing key
gives `None` and the raw JSON value is kept otherwise. -/
def wsReadWind (s : String) : Option Json :=
  let line := pyStrip s
  if line = "" then none
  else
    match pyJsonLoads line with
    | none => none
    | some (Json.obj kvs) => jsonGet kvs "ws_ms"
    | some _ => none

example : rpiReadWind "\x7b\"ws_ms\": 3.456\x7d\n" = some (mkRat 3456 1000) := by with_unfolding_all rfl
example : rpiReadWind "" = none := rfl
example : rpiReadWind "   \n" = none := rfl
example : rpiReadWind "garbage" = none := rfl
example : rpiReadWind "\x7b\"x\": 1\x7d" = some 0 := by with_unfolding_all rfl
example : wsReadWind "\x7b\"x\": 1\x7d" = none := by with_unfolding_all rfl
example : wsReadWind "\x7b\"ws_ms\": 1.57\x7d" = some (Json.num (mkRat 157 100)) := by with_unfolding_all rfl

/-! ## The main loop of `weatherstation_RPI.py` -/

/-- The temperature read period (`TEMP_PERIOD`, seconds). -/
def TEMP_PERIOD : ℚ := 1

/-- The cross-tick state of the RPI main loop: `last_temp_pub` (time of
the last temperature read attempt) and `temp_c` (the retained last
known temperature), initialised to `0.0` and `None` (line 112-113). -/
structure RpiState where
  last_temp_pub : ℚ
  temp_c : Option ℚ
  deriving DecidableEq, Repr

/-- The environment one tick of the RPI loop observes: the serial line
(`none` models an exception raised by the serial read, caught by the
outer `try`), the wall-clock time `time.time()`, and the one-wire
file content seen by `read_temp_c`. -/
structure RpiInput where
  serialLine : Option String
  now : ℚ
  tempFile : Option (List String)

/-- What one tick of the RPI loop emits: the value published to the
wind topic, the value published to the temperature topic, and the
combined debug record (`ws_ms`, `temp_c`) printed to the terminal
(`none` everywhere means "not published / not printed"). -/
structure TickOut where
  windPub : Option ℚ
  tempPub : Option ℚ
  debug : Option (ℚ × ℚ)
  deriving DecidableEq, Repr

/-- This tick's wind sample: `ws` starts as `None` every tick
(line 117) and is set only from this tick's serial line. -/
def rpiWindOf (inp : RpiInput) : Option ℚ :=
  match inp.serialLine with
  | none => none
  | some s => rpiReadWind s

/-- Lines 132-137 of `weatherstation_RPI.py`: when at least
`TEMP_PERIOD` elapsed since `last_temp_pub`, attempt a read; a
successful read overwrites `temp_c`; `last_temp_pub` is set to `now`
on every attempt, successful or not. -/
def rpiTempStep (st : RpiState) (inp : RpiInput) : RpiState :=
  if inp.now - st.last_temp_pub ≥ TEMP_PERIOD then
    match read_temp_c inp.tempFile with
    | some tc => ⟨inp.now, some tc⟩
    | none => ⟨inp.now, st.temp_c⟩
  else st

/-- One tick of the RPI main loop (lines 116-150): read wind, maybe
read temperature, publish `round(ws, 2)` when `ws` is present and
`round(temp_c, 2)` when a temperature is retained, and print the
combined debug record when both are present. -/
def rpiTick (st : RpiState) (inp : RpiInput) : RpiState × TickOut :=
  let ws := rpiWindOf inp
  let st' := rpiTempStep st inp
  (st',
   { windPub := ws.map pyRound2
     tempPub := st'.temp_c.map pyRound2
     debug :=
       match ws, st'.temp_c with
       | some w, some t => some (pyRound2 w, pyRound2 t)
       | _, _ => none })

/-- Run the RPI loop over a list of tick inputs, collecting the final
state and each tick's outputs. -/
def rpiRun (st : RpiState) : List RpiInput → RpiState × List TickOut
  | [] => (st, [])
  | inp :: rest =>
    let p := rpiTick st inp
    let q := rpiRun p.1 rest
    (q.1, p.2 :: q.2)

/-! ## The main loop of `weatherstation.py` -/

/-- The environment one tick of the `weatherstation.py` loop observes
(same reading as `RpiInput`; the file content feeds `read_temp`). -/
structure WsInput where
  serialLine : Option String
  now : ℚ
  tempFile : Option (List String)

/-- The temperature-read condition of `weatherstation.py` line 70:
`int(time.time()) % 1 == 0`. -/
def wsTempCondition (now : ℚ) : Bool := ⌊now⌋ % 1 == 0

/-- This tick's wind value in `weatherstation.py`: `None` each tick,
set only from this tick's serial line (bare `except` catches serial
and decode errors alike). -/
def wsWindOf (inp : WsInput) : Option Json :=
  match inp.serialLine with
  | none => none
  | some s => wsReadWind s

/-- `round(x, 2)` applied to the raw JSON value `weatherstation.py`
keeps in `wind`: a number rounds, a bool is an `int` (so `round`
returns it unchanged), anything else raises `TypeError`. -/
def pyRound2Json : Json → Except PyErr ℚ
  | .num q => .ok (pyRound2 q)
  | .bool b => .ok (if b then 1 else 0)
  | _ => .error .typeError

/-- One tick of the `weatherstation.py` main loop (lines 57-83).  The
loop carries no state from tick to tick.  `read_temp` runs under no
`try`, so its exceptions (and `round`'s `TypeError`) escape and kill
the loop, modelled by the `Except`. -/
def wsTick (inp : WsInput) : Except PyErr TickOut := do
  let wind := wsWindOf inp
  let temp ← if wsTempCondition inp.now then read_temp inp.tempFile else pure none
  let windPub ← match wind with
    | none => pure none
    | some j => (pyRound2Json j).map some
  let tempPub := temp.map pyRound2
  let debug ← match wind, temp with
    | some j, some t => (pyRound2Json j).map (fun w => some (w, pyRound2 t))
    | _, _ => pure none
  pure { windPub := windPub, tempPub := tempPub, debug := debug }

/-- Run the `weatherstation.py` loop: outputs of the completed ticks,
and the exception that killed the loop, if one was raised. -/
def wsRun : List WsInput → List TickOut × Option PyErr
  | [] => ([], none)
  | inp :: rest =>
    match wsTick inp with
    | .error e => ([], some e)
    | .ok out =>
      let q := wsRun rest
      (out :: q.1, q.2)

/-! ## Startup (serial-port discovery) -/

/-- Outcome of `main`'s startup in `weatherstation_RPI.py`
(lines 98-104) as observable behaviour: whether the diagnostic was
printed, whether the tick loop was entered, and the process exit code
(a plain `return` from `main` exits the interpreter with code 0). -/
structure StartupResult where
  printedDiagnostic : Bool
  enteredLoop : Bool
  exitCode : Nat
  deriving DecidableEq, Repr

/-- `weatherstation_RPI.py` lines 99-104: `find_serial_port` returns
the first matching device or `None`; on `None`, `main` prints the
diagnostic and returns (exit code 0) without entering the loop. -/
def rpiStartup (port : Option String) : StartupResult :=
  match port with
  | none => { printedDiagnostic := true, enteredLoop := false, exitCode := 0 }
  | some _ => { printedDiagnostic := false, enteredLoop := true, exitCode := 0 }

/-- `weatherstation.py` line 13: `glob.glob("/dev/ttyACM*")[0]`, run
at module load; with no match the subscript raises an uncaught
`IndexError` (traceback on stderr, interpreter exit code 1). -/
def wsPortDiscovery : List String → Except PyErr String
  | [] => .error .indexError
  | p :: _ => .ok p

/-- Pair two optional values: `some` exactly when both are `some`
(the shape of the debug-record guard `ws is not None and temp_c is not
None`). -/
def zipOpt : Option ℚ → Option ℚ → Option (ℚ × ℚ)
  | some a, some b => some (a, b)
  | _, _ => none

/-! ## Helper lemmas about the string primitives -/

theorem isPrefixL_sound {l1 l2 : List Char} (h : l1 <+: l2) :
    isPrefixL l1 l2 = true := by
  induction l1 generalizing l2 with
  | nil => rfl
  | cons a as ih =>
    obtain ⟨t, ht⟩ := h
    cases l2 with
    | nil => cases ht
    | cons b bs =>
      have h1 : a = b := (List.cons.injEq _ _ _ _ ▸ ht).1
      have h2 : as ++ t = bs := (List.cons.injEq _ _ _ _ ▸ ht).2
      simp [isPrefixL, h1, ih ⟨t, h2⟩]

theorem containsL_sound {l1 l2 : List Char} (h : l1 <:+: l2) :
    containsL l1 l2 = true := by
  obtain ⟨s, t, hst⟩ := h
  induction s generalizing l2 with
  | nil =>
    cases l2 with
    | nil =>
      have : l1 = [] := by
        cases l1 with
        | nil => rfl
        | cons x xs => simp at hst
      simp [this, containsL, isPrefixL]
    | cons c cs =>
      simp only [List.nil_append] at hst
      simp [containsL, isPrefixL_sound ⟨t, hst⟩]
  | cons c cs ih =>
    cases l2 with
    | nil => cases hst
    | cons b bs =>
      have h1 : c = b := (List.cons.injEq _ _ _ _ ▸ hst).1
      have h2 : cs ++ l1 ++ t = bs := by
        have := (List.cons.injEq _ _ _ _ ▸ hst).2
        simpa using this
      simp [containsL, ih h2]

theorem pyStripL_sub (cs : List Char) : pyStripL cs <:+: cs := by
  have h1 : cs.dropWhile isPyWs <:+ cs := List.dropWhile_suffix isPyWs
  have h2 : (cs.dropWhile isPyWs).reverse.dropWhile isPyWs <:+
      (cs.dropWhile isPyWs).reverse := List.dropWhile_suffix isPyWs
  have h3 : pyStripL cs <+: cs.dropWhile isPyWs := by
    unfold pyStripL
    refine List.reverse_suffix.mp ?_
    simpa using h2
  exact (h3.isInfix).trans h1.isInfix

theorem yes_contains_of_takeRight {l0 : List Char}
    (h : listTakeRight 3 (pyStripL l0) = yesL) : containsL yesL l0 = true := by
  have hsuff : yesL <:+ pyStripL l0 := by
    refine ⟨(pyStripL l0).take ((pyStripL l0).length - 3), ?_⟩
    rw [← h]
    exact List.take_append_drop _ _
  exact containsL_sound (hsuff.isInfix.trans (pyStripL_sub l0))

theorem mem_dropWhile_of_mem {c : Char} {p : Char → Bool} {l : List Char}
    (h : c ∈ l) : p c = true ∨ c ∈ l.dropWhile p := by
  induction l with
  | nil => cases h
  | cons a t ih =>
    rw [List.dropWhile_cons]
    by_cases hpa : p a = true
    · rcases List.mem_cons.mp h with rfl | hm
      · left; exact hpa
      · rcases ih hm with hl | hr
        · left; exact hl
        · right; simpa [hpa] using hr
    · right; simp [hpa, h]

theorem mem_pyStripL_or_ws {c : Char} {cs : List Char} (h : c ∈ cs) :
    isPyWs c = true ∨ c ∈ pyStripL cs := by
  rcases mem_dropWhile_of_mem h with hws | h1
  · left; exact hws
  · have h2 : c ∈ (cs.dropWhile isPyWs).reverse := List.mem_reverse.mpr h1
    rcases mem_dropWhile_of_mem h2 with hws | h3
    · left; exact hws
    · right
      unfold pyStripL
      exact List.mem_reverse.mpr h3

theorem pyDigitRun_mem : ∀ {cs : List Char}, pyDigitRun cs = true →
    ∀ c ∈ cs, c.isDigit = true ∨ c = '_' := by
  intro cs
  induction cs using pyDigitRun.induct with
  | case1 => intro _ c hc; cases hc
  | case2 d rest ih =>
    intro h c hc
    have h' : d.isDigit = true ∧ pyDigitRun (d :: rest) = true := by
      simpa [pyDigitRun] using h
    rcases List.mem_cons.mp hc with rfl | hm
    · right; rfl
    · exact ih h'.2 c hm
  | case3 a rest hne ih =>
    intro h c hc
    rw [pyDigitRun.eq_def] at h
    have h' : a.isDigit = true ∧ pyDigitRun rest = true := by
      split at h
      · rename_i heq; exact (List.cons_ne_nil a rest heq).elim
      · rename_i c1 rest1 heq
        injection heq with ha hr
        exact (hne c1 rest1 ha hr).elim
      · rename_i c1 rest1 hne2 heq
        injection heq with ha hr
        subst ha; subst hr
        simpa using h
    rcases List.mem_cons.mp hc with rfl | hm
    · left; exact h'.1
    · exact ih h'.2 c hm

theorem natDigits_mem {cs : List Char} {n : Nat} (h : natDigits cs = some n) :
    ∀ c ∈ cs, c.isDigit = true ∨ c = '_' := by
  cases cs with
  | nil => cases h
  | cons a t =>
    rw [natDigits.eq_def] at h
    dsimp only [] at h
    by_cases hrun : (a.isDigit && pyDigitRun (a :: t)) = true
    · exact pyDigitRun_mem (Bool.and_elim_right hrun)
    · rw [if_neg hrun] at h; cases h

theorem pyIntL_mem {cs : List Char} {n : Int} (h : pyIntL cs = some n) :
    ∀ c ∈ cs, isPyWs c = true ∨ c = '+' ∨ c = '-' ∨ c.isDigit = true ∨ c = '_' := by
  intro c hc
  rcases mem_pyStripL_or_ws hc with hws | hmem
  · left; exact hws
  · right
    rw [pyIntL.eq_def] at h
    cases hstrip : pyStripL cs with
    | nil => rw [hstrip] at hmem; cases hmem
    | cons a rest =>
      rw [hstrip] at h hmem
      dsimp only [] at h
      by_cases ha : a = '+'
      · rw [if_pos ha] at h
        rcases List.mem_cons.mp hmem with rfl | hm
        · left; exact ha
        · rcases Option.map_eq_some'.mp h with ⟨m, hm2, _⟩
          rcases natDigits_mem hm2 c hm with hd | hu
          · right; right; left; exact hd
          · right; right; right; exact hu
      · rw [if_neg ha] at h
        by_cases hb : a = '-'
        · rw [if_pos hb] at h
          rcases List.mem_cons.mp hmem with rfl | hm
          · right; left; exact hb
          · rcases Option.map_eq_some'.mp h with ⟨m, hm2, _⟩
            rcases natDigits_mem hm2 c hm with hd | hu
            · right; right; left; exact hd
            · right; right; right; exact hu
        · rw [if_neg hb] at h
          rcases Option.map_eq_some'.mp h with ⟨m, hm2, _⟩
          rcases natDigits_mem hm2 c hmem with hd | hu
          · right; right; left; exact hd
          · right; right; right; exact hu

theorem no_t_of_pyIntL {cs : List Char} {n : Int} (h : pyIntL cs = some n) :
    ∀ c ∈ cs, c ≠ 't' := by
  intro c hc hct
  subst hct
  rcases pyIntL_mem h _ hc with h1 | h1 | h1 | h1 | h1 <;> simp_all [isPyWs]

theorem splitFirstL_tEq_none {cs : List Char} (h : ∀ c ∈ cs, c ≠ 't') :
    splitFirstL tEqL cs = none := by
  induction cs with
  | nil => rfl
  | cons a t ih =>
    have ha : a ≠ 't' := h a (List.mem_cons_self a t)
    have hpre : isPrefixL tEqL (a :: t) = false := by
      have : ('t' == a) = false := beq_eq_false_iff_ne.mpr (Ne.symm ha)
      simp [tEqL, isPrefixL, this]
    unfold splitFirstL
    rw [hpre]
    simp only [Bool.false_eq_true, if_false]
    rw [ih (fun c hc => h c (List.mem_cons_of_mem a hc))]

theorem pySplit1_of_split {l1 : List Char} {pre post : List Char} {n : Int}
    (hsplit : splitFirstL tEqL l1 = some (pre, post))
    (hint : pyIntL post = some n) :
    pySplit1 tEqL l1 = some post := by
  unfold pySplit1
  rw [hsplit]
  dsimp only []
  rw [splitFirstL_tEq_none (no_t_of_pyIntL hint)]

/-! ## Claim theorems -/

/-- Claim C5: for every well-formed one-wire file content whose first
line ends with the token `"YES"` and whose second line contains `"t="`
followed by an integer `n` (everything after the marker parses as the
integer `n`), both temperature readers return exactly `n / 1000`. -/
theorem read_temp_wellformed_value
    (l0 l1 : String) (rest : List String) (pre post : List Char) (n : Int)
    (hyes : listTakeRight 3 (pyStripL l0.toList) = yesL)
    (hsplit : splitFirstL tEqL l1.toList = some (pre, post))
    (hint : pyIntL post = some n) :
    read_temp_c (some (l0 :: l1 :: rest)) = some ((n : ℚ) / 1000) ∧
    read_temp (some (l0 :: l1 :: rest)) = .ok (some ((n : ℚ) / 1000)) := by
  constructor
  · rw [read_temp_c.eq_def]
    dsimp only []
    rw [if_neg (fun hne => hne hyes)]
    rw [hsplit]
    dsimp only []
    rw [hint]
  · rw [read_temp.eq_def]
    dsimp only []
    rw [if_pos (yes_contains_of_takeRight hyes)]
    rw [pySplit1_of_split hsplit hint]
    dsimp only []
    rw [hint]

/-- Witness for C5 at the concrete content `["ab YES\n", "cd t=22875\n"]`. -/
theorem read_temp_wellformed_value_witness :
    read_temp_c (some ["ab YES\n", "cd t=22875\n"])
      = some (((22875 : Int) : ℚ) / 1000) ∧
    read_temp (some ["ab YES\n", "cd t=22875\n"])
      = .ok (some (((22875 : Int) : ℚ) / 1000)) :=
  read_temp_wellformed_value "ab YES\n" "cd t=22875\n" [] "cd ".toList
    "22875\n".toList 22875 (by decide) (by decide) (by decide)

/-- Claim C2 (code bug): `read_temp_c` returns `None` on the malformed
inputs, but `read_temp` raises: `IndexError` on a file truncated to
one line, `ValueError` on a non-integer token after `t=`, and
`FileNotFoundError` on a missing file — contradicting its own header
comment ("Returnerar ... None om fel") and the claim. -/
theorem read_temp_raises_on_malformed :
    read_temp (some ["ab YES\n"]) = .error .indexError ∧
    read_temp (some ["ab YES\n", "cd t=abc\n"]) = .error .valueError ∧
    read_temp none = .error .fileNotFound ∧
    read_temp_c (some ["ab YES\n"]) = none ∧
    read_temp_c (some ["ab YES\n", "cd t=abc\n"]) = none ∧
    read_temp_c none = none :=
  ⟨rfl, rfl, rfl, rfl, rfl, rfl⟩

/-- Claim C4 (code bug): in `weatherstation_RPI.py` the elapsed-time
marker is set to `now` exactly when a read is attempted (elapsed at
least `TEMP_PERIOD`), regardless of the read's outcome — but the
guard of `weatherstation.py`, `int(time.time()) % 1 == 0`, is true at
every wall-clock time, so that script attempts a read on every tick
even when far less than the 1-second period has elapsed. -/
theorem ws_temp_condition_always_true :
    (∀ now : ℚ, wsTempCondition now = true) ∧
    (∀ (st : RpiState) (inp : RpiInput),
        (rpiTempStep st inp).last_temp_pub
          = if inp.now - st.last_temp_pub ≥ TEMP_PERIOD then inp.now
            else st.last_temp_pub) := by
  constructor
  · intro now
    unfold wsTempCondition
    simp [Int.emod_one]
  · intro st inp
    unfold rpiTempStep
    split
    · cases read_temp_c inp.tempFile <;> rfl
    · rfl

/-- Counterexample to claim C9 as stated: with no serial device,
`weatherstation_RPI.py` prints the diagnostic and never enters the
loop, but `main` plainly returns, so the process exit code is 0, not
non-zero. -/
theorem rpi_no_serial_exit_code_cex :
    rpiStartup none
      = { printedDiagnostic := true, enteredLoop := false, exitCode := 0 } :=
  rfl

/-- Claim C9 (amended): with no serial device discoverable at startup,
`weatherstation_RPI.py` prints a diagnostic, never enters the tick
loop, and exits with code 0 (a plain return); `weatherstation.py`
instead dies of an uncaught `IndexError` at import time. -/
theorem startup_no_serial_behavior :
    (rpiStartup none).printedDiagnostic = true ∧
    (rpiStartup none).enteredLoop = false ∧
    (rpiStartup none).exitCode = 0 ∧
    wsPortDiscovery [] = .error .indexError :=
  ⟨rfl, rfl, rfl, rfl⟩

/-- Claim C10: on every tick the debug record is `some` exactly when
both channels were published, and it then carries exactly the two
published (identically rounded) values. -/
theorem debug_matches_publishes (st : RpiState) (inp : RpiInput) :
    (rpiTick st inp).2.debug
      = zipOpt ((rpiTick st inp).2.windPub) ((rpiTick st inp).2.tempPub) := by
  cases hw : rpiWindOf inp <;> cases ht : (rpiTempStep st inp).temp_c <;>
    simp [rpiTick, zipOpt, hw, ht]

/-- Claim C8: every published wind value is the wind reading rounded to
2 decimals, every published temperature is the retained temperature
rounded to 2 decimals, the debug record embeds exactly those two
published values, and for the serial input with `ws_ms = 3.456` the
published wind value is `3.46`. -/
theorem published_values_rounded :
    (∀ (st : RpiState) (inp : RpiInput),
        (rpiTick st inp).2.windPub = (rpiWindOf inp).map pyRound2 ∧
        (rpiTick st inp).2.tempPub
          = ((rpiTick st inp).1).temp_c.map pyRound2 ∧
        (rpiTick st inp).2.debug
          = zipOpt ((rpiTick st inp).2.windPub) ((rpiTick st inp).2.tempPub)) ∧
    rpiReadWind "\x7b\"ws_ms\": 3.456\x7d" = some (mkRat 3456 1000) ∧
    pyRound2 (mkRat 3456 1000) = mkRat 346 100 := by
  refine ⟨fun st inp => ⟨rfl, rfl, ?_⟩, by with_unfolding_all rfl,
    by with_unfolding_all rfl⟩
  cases hw : rpiWindOf inp <;> cases ht : (rpiTempStep st inp).temp_c <;>
    simp [rpiTick, zipOpt, hw, ht]

/-- Claim C6: the wind value published on each tick is a function of
that tick's serial input alone — the run-level publish list does not
depend on the loop state, so no wind sample is ever carried over; a
tick whose serial read yields nothing publishes nothing. -/
theorem wind_no_carry_over :
    (∀ (st : RpiState) (inputs : List RpiInput),
        (rpiRun st inputs).2.map TickOut.windPub
          = inputs.map (fun inp => (rpiWindOf inp).map pyRound2)) ∧
    (∀ (t : ℚ) (f : Option (List String)),
        rpiWindOf { serialLine := none, now := t, tempFile := f } = none) := by
  constructor
  · intro st inputs
    induction inputs generalizing st with
    | nil => rfl
    | cons inp rest ih =>
      show (rpiTick st inp).2.windPub ::
          ((rpiRun (rpiTick st inp).1 rest).2.map TickOut.windPub) = _
      rw [ih]
      rfl
  · intro t f
    rfl

/-- Claim C1 (amended, for `weatherstation_RPI.py`): a successful read
on an attempted tick overwrites the retained temperature; and from any
state already holding a retained value, a run in which every
temperature read fails leaves the retained value unchanged and
publishes exactly that retained value (rounded) on every tick.
(`weatherstation.py` retains nothing — see the counterexample.) -/
theorem rpi_temp_retention :
    (∀ (st : RpiState) (inp : RpiInput) (tc : ℚ),
        read_temp_c inp.tempFile = some tc →
        inp.now - st.last_temp_pub ≥ TEMP_PERIOD →
        ((rpiTick st inp).1).temp_c = some tc) ∧
    (∀ (st : RpiState) (inputs : List RpiInput) (v : ℚ),
        st.temp_c = some v →
        (∀ inp ∈ inputs, read_temp_c inp.tempFile = none) →
        (rpiRun st inputs).1.temp_c = some v ∧
        ∀ out ∈ (rpiRun st inputs).2, out.tempPub = some (pyRound2 v)) := by
  constructor
  · intro st inp tc hread helapsed
    show (rpiTempStep st inp).temp_c = some tc
    unfold rpiTempStep
    rw [if_pos helapsed, hread]
  · intro st inputs
    induction inputs generalizing st with
    | nil =>
      intro v hv _
      exact ⟨hv, by intro out hout; cases hout⟩
    | cons inp rest ih =>
      intro v hv hfail
      have hstep : (rpiTempStep st inp).temp_c = some v := by
        unfold rpiTempStep
        rw [hfail inp (List.mem_cons_self inp rest)]
        split
        · exact hv
        · exact hv
      have hrest := ih (rpiTick st inp).1 v hstep
        (fun i hi => hfail i (List.mem_cons_of_mem inp hi))
      refine ⟨hrest.1, ?_⟩
      intro out hout
      rcases List.mem_cons.mp hout with rfl | hm
      · show ((rpiTempStep st inp).temp_c).map pyRound2 = some (pyRound2 v)
        rw [hstep]
        rfl
      · exact hrest.2 out hm

/-- Witness for C1's theorem: a successful read at an attempted tick
overwrites the retained value, and a CRC-failed read on the next tick
leaves a previously retained value in place. -/
theorem rpi_temp_retention_witness :
    ((rpiTick { last_temp_pub := 0, temp_c := none }
        { serialLine := none, now := 5,
          tempFile := some ["ab YES\n", "cd t=22875\n"] }).1).temp_c
      = some (((22875 : Int) : ℚ) / 1000) ∧
    (rpiRun { last_temp_pub := 0, temp_c := some (mkRat 5 2) }
        [{ serialLine := none, now := 5,
           tempFile := some ["cc NO\n", "cd t=22875\n"] }]).1.temp_c
      = some (mkRat 5 2) :=
  ⟨rpi_temp_retention.1 _ _ _ rfl (by norm_num [TEMP_PERIOD]),
   (rpi_temp_retention.2 _ _ _ rfl
     (by intro i hi; rw [List.mem_singleton] at hi; subst hi; rfl)).1⟩

/-- Counterexample to claim C1 as stated: in `weatherstation.py` the
temperature is not retained across ticks.  After a successful read
(tick 1 publishes 22.88), a CRC-failed read on tick 2 publishes
nothing to the temperature channel instead of the previously read
value; no exception is involved. -/
theorem ws_temp_not_retained_cex :
    (wsRun
        [{ serialLine := none, now := 5,
           tempFile := some ["ab YES\n", "cd t=22875\n"] },
         { serialLine := none, now := mkRat 51 10,
           tempFile := some ["cc NO\n", "cd t=22875\n"] }]).1.map
        TickOut.tempPub
      = [some (mkRat 2288 100), none] ∧
    (wsRun
        [{ serialLine := none, now := 5,
           tempFile := some ["ab YES\n", "cd t=22875\n"] },
         { serialLine := none, now := mkRat 51 10,
           tempFile := some ["cc NO\n", "cd t=22875\n"] }]).2 = none := by
  constructor
  · with_unfolding_all rfl
  · with_unfolding_all rfl

/-- Claim C7: from a state with no retained temperature, a run in which
every temperature read fails publishes nothing to the temperature
channel and never emits the debug record — in both scripts (for
`weatherstation.py`, over the ticks the loop completes). -/
theorem no_temp_success_no_publish :
    (∀ (st : RpiState) (inputs : List RpiInput),
        st.temp_c = none →
        (∀ inp ∈ inputs, read_temp_c inp.tempFile = none) →
        ∀ out ∈ (rpiRun st inputs).2, out.tempPub = none ∧ out.debug = none) ∧
    (∀ (inputs : List WsInput),
        (∀ inp ∈ inputs, read_temp inp.tempFile = .ok none) →
        ∀ out ∈ (wsRun inputs).1, out.tempPub = none ∧ out.debug = none) := by
  constructor
  · intro st inputs
    induction inputs generalizing st with
    | nil => intro _ _ out hout; cases hout
    | cons inp rest ih =>
      intro hv hfail
      have hstep : (rpiTempStep st inp).temp_c = none := by
        unfold rpiTempStep
        rw [hfail inp (List.mem_cons_self inp rest)]
        split
        · exact hv
        · exact hv
      intro out hout
      rcases List.mem_cons.mp hout with rfl | hm
      · constructor
        · show ((rpiTempStep st inp).temp_c).map pyRound2 = none
          rw [hstep]
          rfl
        · show (match rpiWindOf inp, (rpiTempStep st inp).temp_c with
              | some w, some t => some (pyRound2 w, pyRound2 t)
              | _, _ => none) = none
          rw [hstep]
          cases rpiWindOf inp <;> rfl
      · exact ih (rpiTick st inp).1 hstep
          (fun i hi => hfail i (List.mem_cons_of_mem inp hi)) out hm
  · intro inputs
    induction inputs with
    | nil => intro _ out hout; cases hout
    | cons inp rest ih =>
      intro hfail
      have hcond : wsTempCondition inp.now = true := by
        simp [wsTempCondition, Int.emod_one]
      have hread := hfail inp (List.mem_cons_self inp rest)
      intro out hout
      rw [wsRun.eq_def] at hout
      dsimp only [] at hout
      cases htick : wsTick inp with
      | error e => rw [htick] at hout; cases hout
      | ok o =>
        rw [htick] at hout
        dsimp only [] at hout
        have ho : o.tempPub = none ∧ o.debug = none := by
          rw [wsTick] at htick
          rw [hcond] at htick
          dsimp only [] at htick
          rw [hread] at htick
          cases hwind : wsWindOf inp with
          | none =>
            rw [hwind] at htick
            dsimp only [Bind.bind, Except.bind, Option.map, pure,
              Except.pure] at htick
            cases htick
            exact ⟨rfl, rfl⟩
          | some j =>
            rw [hwind] at htick
            dsimp only [Bind.bind, Except.bind, Option.map, pure,
              Except.pure] at htick
            cases hr : pyRound2Json j with
            | error e =>
              rw [hr] at htick
              dsimp only [Except.map] at htick
              cases htick
            | ok w =>
              rw [hr] at htick
              dsimp only [Except.map] at htick
              cases htick
              exact ⟨rfl, rfl⟩
        rcases List.mem_cons.mp hout with rfl | hm
        · exact ho
        · exact ih (fun i hi => hfail i (List.mem_cons_of_mem inp hi)) out hm

/-- Witness for C7: one failing tick for each script: the tick
publishes no temperature and emits no debug record. -/
theorem no_temp_success_no_publish_witness :
    ((rpiTick { last_temp_pub := 0, temp_c := none }
        { serialLine := none, now := 5, tempFile := none }).2.tempPub = none ∧
     (rpiTick { last_temp_pub := 0, temp_c := none }
        { serialLine := none, now := 5, tempFile := none }).2.debug = none) ∧
    (({ windPub := none, tempPub := none, debug := none } : TickOut).tempPub
        = none ∧
     ({ windPub := none, tempPub := none, debug := none } : TickOut).debug
        = none) :=
  ⟨no_temp_success_no_publish.1 { last_temp_pub := 0, temp_c := none }
      [{ serialLine := none, now := 5, tempFile := none }] rfl
      (by intro i hi; rw [List.mem_singleton] at hi; subst hi; rfl)
      _ (List.mem_singleton.mpr rfl),
   no_temp_success_no_publish.2
      [{ serialLine := none, now := 5,
         tempFile := some ["cc NO\n", "cd t=22875\n"] }]
      (by intro i hi; rw [List.mem_singleton] at hi; subst hi; rfl)
      { windPub := none, tempPub := none, debug := none }
      (List.mem_singleton.mpr rfl)⟩

/-- Claim C3 (amended): a blank line and an undecodable line yield
absent in both scripts, with the decode exception caught internally;
but a valid JSON record lacking `ws_ms` yields absent only in
`weatherstation.py` — in `weatherstation_RPI.py` the `.get` default
turns it into the wind value `0.0`, which is then published. -/
theorem wind_reader_absent_cases :
    (∀ s : String, pyStrip s = "" →
        rpiReadWind s = none ∧ wsReadWind s = none) ∧
    (∀ s : String, pyStrip s ≠ "" → pyJsonLoads (pyStrip s) = none →
        rpiReadWind s = none ∧ wsReadWind s = none) ∧
    (∀ (s : String) (kvs : List (String × Json)),
        pyJsonLoads (pyStrip s) = some (Json.obj kvs) →
        jsonGet kvs "ws_ms" = none →
        wsReadWind s = none ∧ rpiReadWind s = some 0) := by
  refine ⟨?_, ?_, ?_⟩
  · intro s h
    constructor <;> simp [rpiReadWind, wsReadWind, h]
  · intro s hnb hload
    constructor <;> simp [rpiReadWind, wsReadWind, hnb, hload]
  · intro s kvs hload hget
    have hnb : pyStrip s ≠ "" := by
      intro hb
      rw [hb] at hload
      rw [show pyJsonLoads "" = none from rfl] at hload
      cases hload
    constructor
    · simp [wsReadWind, hnb, hload, hget]
    · simp [rpiReadWind, hnb, hload, hget, pyFloat]

/-- Witness for C3's theorem: the blank line, an undecodable line, and
a record without `ws_ms`, each at a concrete input. -/
theorem wind_reader_absent_cases_witness :
    (rpiReadWind " " = none ∧ wsReadWind " " = none) ∧
    (rpiReadWind "garbage" = none ∧ wsReadWind "garbage" = none) ∧
    (wsReadWind "\x7b\"x\": 1\x7d" = none ∧
     rpiReadWind "\x7b\"x\": 1\x7d" = some 0) :=
  ⟨wind_reader_absent_cases.1 " " rfl,
   wind_reader_absent_cases.2.1 "garbage" (by decide) rfl,
   wind_reader_absent_cases.2.2 "\x7b\"x\": 1\x7d" [("x", Json.num 1)]
     (by with_unfolding_all rfl) rfl⟩

/-- Counterexample to claim C3 as stated: `\x7b"x": 1\x7d` is a valid
JSON record lacking `ws_ms`, yet the RPI wind reader yields the
present value `0`, not absent. -/
theorem rpi_missing_ws_ms_default_cex :
    pyJsonLoads "\x7b\"x\": 1\x7d" = some (Json.obj [("x", Json.num 1)]) ∧
    jsonGet [("x", Json.num 1)] "ws_ms" = none ∧
    rpiReadWind "\x7b\"x\": 1\x7d" = some 0 ∧
    rpiReadWind "\x7b\"x\": 1\x7d" ≠ none := by
  refine ⟨by with_unfolding_all rfl, rfl, by with_unfolding_all rfl, ?_⟩
  intro h
  rw [show rpiReadWind "\x7b\"x\": 1\x7d" = some 0 by with_unfolding_all rfl]
    at h
  cases h
